import Mathlib

set_option autoImplicit false

/-!
Shallow embedding of the constraint-adherence evaluation harness
(`app/experiments/utils.py`, `experiment_2_taxonomy.py`,
`experiment_3_contradictions.py`).

Python text values are modelled as lists of characters (`PyStr`); Python
floats produced by the scoring arithmetic are modelled as exact rationals.
-/

abbrev PyStr := List Char

/-- Python `s.lower()`, applied character by character. -/
def pyLower (s : PyStr) : PyStr := s.map Char.toLower

/-- Python `hay.startswith(needle)` on character lists (first argument is
the needle). -/
def pyStartsWith : PyStr → PyStr → Bool
  | [], _ => true
  | _ :: _, [] => false
  | a :: as, b :: bs => (a == b) && pyStartsWith as bs

/-- Python `needle in hay`: substring containment on character lists. -/
def pyContains (needle : PyStr) : PyStr → Bool
  | [] => needle.isEmpty
  | c :: rest => pyStartsWith needle (c :: rest) || pyContains needle rest

theorem pyStartsWith_iff : ∀ (n h : PyStr), pyStartsWith n h = true ↔ ∃ t, h = n ++ t := by
  intro n
  induction n with
  | nil =>
    intro h
    simp [pyStartsWith]
  | cons a as ih =>
    intro h
    cases h with
    | nil =>
      simp [pyStartsWith]
    | cons b bs =>
      simp only [pyStartsWith, Bool.and_eq_true, beq_iff_eq, ih, List.cons_append]
      constructor
      · rintro ⟨rfl, t, rfl⟩
        exact ⟨t, rfl⟩
      · rintro ⟨t, ht⟩
        injection ht with h1 h2
        exact ⟨h1.symm, t, h2⟩

theorem pyContains_iff : ∀ (n h : PyStr), pyContains n h = true ↔ ∃ p q, h = p ++ n ++ q := by
  intro n h
  induction h with
  | nil =>
    simp only [pyContains, List.isEmpty_iff]
    constructor
    · rintro rfl
      exact ⟨[], [], rfl⟩
    · rintro ⟨p, q, hpq⟩
      rcases List.append_eq_nil.mp hpq.symm with ⟨h1, h2⟩
      exact (List.append_eq_nil.mp h1).2
  | cons c rest ih =>
    simp only [pyContains, Bool.or_eq_true, ih, pyStartsWith_iff]
    constructor
    · rintro (⟨t, ht⟩ | ⟨p, q, hpq⟩)
      · exact ⟨[], t, by simp [ht]⟩
      · exact ⟨c :: p, q, by simp [hpq]⟩
    · rintro ⟨p, q, hpq⟩
      cases p with
      | nil =>
        exact Or.inl ⟨q, by simpa using hpq⟩
      | cons x xs =>
        refine Or.inr ⟨xs, q, ?_⟩
        simpa using congrArg List.tail hpq

/-- Result record of `check_lexical_adherence` (`utils.py`). -/
structure AdherenceRecord where
  passed_count : Nat
  failed_count : Nat
  passed_words : List PyStr
  failed_words : List PyStr
  adherence : ℚ
deriving DecidableEq

/-- `utils.check_lexical_adherence`: a rule passes when its lowercase form is
a substring of the lowercase story text; adherence is the passed fraction,
or 1.0 for an empty rule list. -/
def check_lexical_adherence (story_text : PyStr) (rules : List PyStr) : AdherenceRecord :=
  let lower_story := pyLower story_text
  let passed := rules.filter (fun word => pyContains (pyLower word) lower_story)
  let failed := rules.filter (fun word => !(pyContains (pyLower word) lower_story))
  { passed_count := passed.length
    failed_count := failed.length
    passed_words := passed
    failed_words := failed
    adherence := if rules.isEmpty then 1 else (passed.length : ℚ) / (rules.length : ℚ) }

theorem length_filter_add_length_filter_not {α : Type} (p : α → Bool) (l : List α) :
    (l.filter p).length + (l.filter (fun a => !(p a))).length = l.length :=
  (List.length_eq_length_filter_add p).symm

/-- C1: for every text T and rule list R, `check_lexical_adherence` passes a
term exactly when its lowercase form occurs as a substring of the lowercase
text; passed_count + failed_count = |R|; adherence is passed_count / |R| for
non-empty R and 1 for empty R; and adherence always lies in [0, 1]. -/
theorem claim_C1 (T : PyStr) (R : List PyStr) :
    (∀ w, w ∈ R →
      (w ∈ (check_lexical_adherence T R).passed_words ↔
        ∃ p q, pyLower T = p ++ pyLower w ++ q)) ∧
    (check_lexical_adherence T R).passed_count + (check_lexical_adherence T R).failed_count
      = R.length ∧
    (R ≠ [] → (check_lexical_adherence T R).adherence
      = ((check_lexical_adherence T R).passed_count : ℚ) / (R.length : ℚ)) ∧
    (R = [] → (check_lexical_adherence T R).adherence = 1) ∧
    0 ≤ (check_lexical_adherence T R).adherence ∧
    (check_lexical_adherence T R).adherence ≤ 1 := by
  refine ⟨?_, ?_, ?_, ?_, ?_, ?_⟩
  · intro w hw
    simp [check_lexical_adherence, List.mem_filter, hw, pyContains_iff]
  · simpa [check_lexical_adherence] using
      length_filter_add_length_filter_not
        (fun word => pyContains (pyLower word) (pyLower T)) R
  · intro h
    simp [check_lexical_adherence, List.isEmpty_iff, h]
  · rintro rfl
    simp [check_lexical_adherence]
  · by_cases hR : R = []
    · subst hR
      simp [check_lexical_adherence]
    · simp only [check_lexical_adherence, List.isEmpty_iff, if_neg hR]
      exact div_nonneg (Nat.cast_nonneg _) (Nat.cast_nonneg _)
  · by_cases hR : R = []
    · subst hR
      simp [check_lexical_adherence]
    · simp only [check_lexical_adherence, List.isEmpty_iff, if_neg hR]
      rw [div_le_one (by exact_mod_cast List.length_pos.mpr hR)]
      exact_mod_cast List.length_filter_le _ R

/-- Witness for C1 at the documented looseness example: the term "cat"
passes against the text "category" and the adherence formula applies. -/
theorem claim_C1_witness :
    (['c', 'a', 't'] ∈
      (check_lexical_adherence ("category".toList) [['c', 'a', 't']]).passed_words) ∧
    (check_lexical_adherence ("category".toList) [['c', 'a', 't']]).adherence
      = ((check_lexical_adherence ("category".toList) [['c', 'a', 't']]).passed_count : ℚ)
        / (([['c', 'a', 't']] : List PyStr).length : ℚ) := by
  have h := claim_C1 ("category".toList) [['c', 'a', 't']]
  refine ⟨?_, h.2.2.1 (by decide)⟩
  exact (h.1 ['c', 'a', 't'] (by decide)).2 ⟨[], "egory".toList, by decide⟩

/-- The terminal failure sentinel text returned by
`utils.call_ollama_with_retries` when every attempt fails. -/
def sentinel (max_retries : Int) : PyStr :=
  ("ERROR: Failed to generate response after " ++ toString max_retries ++ " attempts").toList

/-- One pass of the retry loop of `utils.call_ollama_with_retries`.
`call` is the oracle for `client.chat` at each 0-indexed attempt: `ok` is the
response content, `error` a raised exception's message.  The result pairs the
returned value (`none` models Python falling off the loop and returning
`None`) with the list of back-off sleeps performed, in order. -/
def retryGo (call : Nat → Except PyStr PyStr) (max_retries : Int) (attempt : Nat) :
    Nat → Option PyStr × List Nat
  | 0 => (none, [])
  | fuel + 1 =>
    match call attempt with
    | Except.ok text => (some text, [])
    | Except.error _ =>
      if (attempt : Int) < max_retries - 1 then
        let r := retryGo call max_retries (attempt + 1) fuel
        (r.1, 2 ^ attempt :: r.2)
      else
        (some (sentinel max_retries), [])

/-- `utils.call_ollama_with_retries`: `for attempt in range(max_retries)`
starting at attempt 0, with `max_retries.toNat` iterations available. -/
def call_ollama_with_retries (call : Nat → Except PyStr PyStr) (max_retries : Int) :
    Option PyStr × List Nat :=
  retryGo call max_retries 0 max_retries.toNat

theorem retryGo_all_fail (call : Nat → Except PyStr PyStr) (mr : Int)
    (hfail : ∀ a : Nat, (a : Int) < mr → ∃ e, call a = Except.error e) :
    ∀ (fuel attempt : Nat), 1 ≤ fuel → (attempt : Int) + (fuel : Int) = mr →
      (retryGo call mr attempt fuel).1 = some (sentinel mr) := by
  intro fuel
  induction fuel with
  | zero =>
    intro attempt h1 _
    exact absurd h1 (by omega)
  | succ n ih =>
    intro attempt _ hsum
    obtain ⟨e, he⟩ := hfail attempt (by push_cast at hsum ⊢; omega)
    by_cases hc : (attempt : Int) < mr - 1
    · have hn : 1 ≤ n := by push_cast at hsum; omega
      simp only [retryGo, he, if_pos hc]
      exact ih (attempt + 1) hn (by push_cast at hsum ⊢; omega)
    · simp [retryGo, he, if_neg hc]

/-- C3: when every one of the `max_retries ≥ 1` attempts faults, the client
returns (rather than raises) the literal sentinel string
"ERROR: Failed to generate response after N attempts" with N = max_retries,
so the caller always receives a text value. -/
theorem claim_C3 (call : Nat → Except PyStr PyStr) (mr : Int) (h1 : 1 ≤ mr)
    (hfail : ∀ a : Nat, (a : Int) < mr → ∃ e, call a = Except.error e) :
    (call_ollama_with_retries call mr).1 = some (sentinel mr) := by
  have h2 : 1 ≤ mr.toNat := by omega
  exact retryGo_all_fail call mr hfail mr.toNat 0 h2 (by push_cast; omega)

/-- Witness for C3: three attempts, all faulting, yield the sentinel. -/
theorem claim_C3_witness :
    (call_ollama_with_retries (fun _ => Except.error ['x']) 3).1 = some (sentinel 3) :=
  claim_C3 (fun _ => Except.error ['x']) 3 (by decide) (fun _ _ => ⟨['x'], rfl⟩)

/-- C4: with the first two attempts faulting and the third succeeding
(max_retries ≥ 3), the client returns the successful text and performs
exactly two back-off sleeps of 1 and 2 time units (2 ^ attempt, 0-indexed);
no sleep follows the final attempt. -/
theorem claim_C4 (call : Nat → Except PyStr PyStr) (mr : Int) (hmr : 3 ≤ mr)
    (e0 e1 t : PyStr) (hc0 : call 0 = Except.error e0) (hc1 : call 1 = Except.error e1)
    (hc2 : call 2 = Except.ok t) :
    call_ollama_with_retries call mr = (some t, [1, 2]) := by
  obtain ⟨k, hk⟩ : ∃ k, mr.toNat = k + 3 := ⟨mr.toNat - 3, by omega⟩
  have hb0 : ((0 : Nat) : Int) < mr - 1 := by push_cast; omega
  have hb1 : ((1 : Nat) : Int) < mr - 1 := by push_cast; omega
  unfold call_ollama_with_retries
  rw [hk]
  show (retryGo call mr 0 (k + 2 + 1)) = (some t, [1, 2])
  simp only [retryGo, hc0, hc1, hc2, if_pos hb0, if_pos hb1]
  norm_num

/-- Witness for C4: a concrete oracle failing twice then succeeding. -/
theorem claim_C4_witness :
    call_ollama_with_retries
        (fun a => if a < 2 then Except.error ['x'] else Except.ok ['s']) 3
      = (some ['s'], [1, 2]) :=
  claim_C4 (fun a => if a < 2 then Except.error ['x'] else Except.ok ['s']) 3
    (by decide) ['x'] ['x'] ['s'] rfl rfl rfl

/-- C10: with max_retries ≤ 0 the retry loop body never runs and the client
returns None (no text, no sentinel, no sleeps); the string-returning contract
needs max_retries ≥ 1. -/
theorem claim_C10 (call : Nat → Except PyStr PyStr) (mr : Int) (h : mr ≤ 0) :
    call_ollama_with_retries call mr = (none, []) := by
  have h0 : mr.toNat = 0 := by omega
  simp [call_ollama_with_retries, h0, retryGo]

/-- Witness for C10 at max_retries = 0 with an always-succeeding oracle. -/
theorem claim_C10_witness :
    call_ollama_with_retries (fun _ => Except.ok ['a']) 0 = (none, []) :=
  claim_C10 (fun _ => Except.ok ['a']) 0 (by decide)

/-- Counterexample to C2 as stated: the claim quantifies over every non-empty
constraint set, but the term "error" does occur (case-insensitively) in the
sentinel text, so the scored record for that set has adherence 1, not 0. -/
theorem claim_C2_counterexample :
    (check_lexical_adherence (sentinel 3) ["error".toList]).adherence ≠ 0 := by
  have hp : List.filter (fun word => pyContains (pyLower word) (pyLower (sentinel 3)))
      ["error".toList] = ["error".toList] := by decide
  simp [check_lexical_adherence, hp]
  decide

/-- C2 (amended): when every attempt faults, the scorer still receives the
sentinel text; for a non-empty constraint set none of whose terms occurs
(lowercased) as a substring of the lowercase sentinel, the scored adherence
is 0. -/
theorem claim_C2 (call : Nat → Except PyStr PyStr) (mr : Int) (R : List PyStr)
    (h1 : 1 ≤ mr)
    (hfail : ∀ a : Nat, (a : Int) < mr → ∃ e, call a = Except.error e)
    (hR : R ≠ [])
    (hterms : ∀ w ∈ R, pyContains (pyLower w) (pyLower (sentinel mr)) = false) :
    (call_ollama_with_retries call mr).1 = some (sentinel mr) ∧
    (check_lexical_adherence (sentinel mr) R).adherence = 0 := by
  refine ⟨retryGo_all_fail call mr hfail mr.toNat 0 (by omega) (by push_cast; omega), ?_⟩
  have hp : R.filter (fun word => pyContains (pyLower word) (pyLower (sentinel mr))) = [] := by
    apply List.filter_eq_nil_iff.mpr
    intro a ha
    simp [hterms a ha]
  simp [check_lexical_adherence, List.isEmpty_iff, hR, hp]

/-- Witness for C2 at a concrete always-failing oracle and the one-term
constraint set \x7b"zq"\x7d, which does not occur in the sentinel. -/
theorem claim_C2_witness :
    (call_ollama_with_retries (fun _ => Except.error ['y']) 3).1 = some (sentinel 3) ∧
    (check_lexical_adherence (sentinel 3) ["zq".toList]).adherence = 0 :=
  claim_C2 (fun _ => Except.error ['y']) 3 ["zq".toList] (by decide)
    (fun _ _ => ⟨['y'], rfl⟩) (by decide) (by decide)

/-- The whitespace characters of Python str.strip and str.split (ASCII set). -/
def isPySpace (c : Char) : Bool :=
  c == ' ' || c == '\t' || c == '\n' || c == '\r' || c == '\x0b' || c == '\x0c'

/-- Python `s.strip()`. -/
def pyStrip (s : PyStr) : PyStr :=
  ((s.dropWhile isPySpace).reverse.dropWhile isPySpace).reverse

/-- Python `s.split()` (no separator): maximal runs of non-whitespace,
accumulating the current word reversed. -/
def pyWordsAux (cur : PyStr) : PyStr → List PyStr
  | [] => if cur.isEmpty then [] else [cur.reverse]
  | c :: rest =>
    if isPySpace c then
      if cur.isEmpty then pyWordsAux [] rest else cur.reverse :: pyWordsAux [] rest
    else
      pyWordsAux (c :: cur) rest

/-- Python `s.split()` with no separator. -/
def pyWords (s : PyStr) : List PyStr := pyWordsAux [] s

/-- Python `s.split(sep)` for a non-empty separator, scanning left to right
over non-overlapping occurrences.  `fuel` bounds the recursion; every step
consumes at least one character, so `s.length` fuel is always enough. -/
def pySplitAux (sep : PyStr) : Nat → PyStr → PyStr → List PyStr
  | _, cur, [] => [cur.reverse]
  | 0, cur, l => [cur.reverse ++ l]
  | fuel + 1, cur, c :: rest =>
    if pyStartsWith sep (c :: rest) then
      cur.reverse :: pySplitAux sep fuel [] (rest.drop (sep.length - 1))
    else
      pySplitAux sep fuel (c :: cur) rest

/-- Python `s.split(sep)`; the source only calls it with the non-empty
literal separators "\n\n" and ".". -/
def pySplit (sep s : PyStr) : List PyStr := pySplitAux sep s.length [] s

/-- Result record of `verify_structural_rules` (`experiment_2_taxonomy.py`). -/
structure StructuralResult where
  paragraph_count : Nat
  long_sentences : Nat
  structural_adherence : ℚ

/-- `experiment_2_taxonomy.verify_structural_rules`: paragraphs are the
non-empty stripped blank-line-separated blocks, sentences the non-empty
stripped period-separated pieces of each paragraph; the score averages the
exact-3-paragraph check and the no-sentence-over-15-words check. -/
def verify_structural_rules (story : PyStr) : StructuralResult :=
  let paragraphs := ((pySplit ['\n', '\n'] story).map pyStrip).filter (fun p => !p.isEmpty)
  let long_sentences := (paragraphs.map (fun para =>
      (((pySplit ['.'] para).map pyStrip).filter (fun s => !s.isEmpty)).countP
        (fun sent => decide (15 < (pyWords sent).length)))).sum
  let para_ok : ℚ := if paragraphs.length = 3 then 1.0 else 0.0
  let sentence_ok : ℚ := if long_sentences = 0 then 1.0 else 0.0
  { paragraph_count := paragraphs.length
    long_sentences := long_sentences
    structural_adherence := (para_ok + sentence_ok) / 2 }

theorem verify_structural_adherence_eq (story : PyStr) :
    (verify_structural_rules story).structural_adherence =
      ((if (verify_structural_rules story).paragraph_count = 3 then (1 : ℚ) else 0) +
        (if (verify_structural_rules story).long_sentences = 0 then (1 : ℚ) else 0)) / 2 := by
  simp only [verify_structural_rules]
  norm_num

/-- A three-paragraph, all-short-sentence example text. -/
def threeParaText : PyStr := "The cat sat. It slept.\n\nA dog ran.\n\nBirds flew away.".toList

/-- A two-paragraph, all-short-sentence example text. -/
def twoParaText : PyStr := "The cat sat.\n\nA dog ran.".toList

/-- C5: the structural score averages two binary checks (exactly 3
paragraphs; no sentence over 15 words), so it is always 0, 1/2 or 1; a
3-paragraph all-short-sentence text scores 1 and a 2-paragraph
all-short-sentence text scores 1/2. -/
theorem claim_C5 (story : PyStr) :
    ((verify_structural_rules story).structural_adherence =
      ((if (verify_structural_rules story).paragraph_count = 3 then (1 : ℚ) else 0) +
        (if (verify_structural_rules story).long_sentences = 0 then (1 : ℚ) else 0)) / 2) ∧
    ((verify_structural_rules story).structural_adherence = 0 ∨
      (verify_structural_rules story).structural_adherence = 1 / 2 ∨
      (verify_structural_rules story).structural_adherence = 1) ∧
    (verify_structural_rules threeParaText).structural_adherence = 1 ∧
    (verify_structural_rules twoParaText).structural_adherence = 1 / 2 := by
  refine ⟨verify_structural_adherence_eq story, ?_, ?_, ?_⟩
  · rw [verify_structural_adherence_eq story]
    by_cases h1 : (verify_structural_rules story).paragraph_count = 3 <;>
      by_cases h2 : (verify_structural_rules story).long_sentences = 0 <;>
        norm_num [h1, h2]
  · rw [verify_structural_adherence_eq threeParaText]
    have h1 : (verify_structural_rules threeParaText).paragraph_count = 3 := by decide
    have h2 : (verify_structural_rules threeParaText).long_sentences = 0 := by decide
    rw [h1, h2]
    norm_num
  · rw [verify_structural_adherence_eq twoParaText]
    have h1 : (verify_structural_rules twoParaText).paragraph_count = 2 := by decide
    have h2 : (verify_structural_rules twoParaText).long_sentences = 0 := by decide
    rw [h1, h2]
    norm_num

/-- Counterexample to C9 as stated: the claim quantifies over every
constraint set, but the empty term is a substring of the empty text, so it
passes rather than fails. -/
theorem claim_C9_counterexample :
    (check_lexical_adherence [] [([] : PyStr)]).passed_count ≠ 0 := by
  decide

/-- C9 (amended): for the empty generated text and every constraint set of
non-empty terms, every lexical term fails (passed_count = 0, failed_count =
|R|), and the structural checker reports zero paragraphs, failing the
exact-3 paragraph check. -/
theorem claim_C9 (R : List PyStr) (h : ∀ w ∈ R, w ≠ []) :
    (check_lexical_adherence [] R).passed_count = 0 ∧
    (check_lexical_adherence [] R).passed_words = [] ∧
    (check_lexical_adherence [] R).failed_count = R.length ∧
    (verify_structural_rules []).paragraph_count = 0 ∧
    (verify_structural_rules []).paragraph_count ≠ 3 := by
  have hkey : ∀ a ∈ R, pyContains (pyLower a) (pyLower []) = false := by
    intro a ha
    cases hc : pyContains (pyLower a) (pyLower ([] : PyStr)) with
    | false => rfl
    | true =>
      exfalso
      apply h a ha
      have h2 : (pyLower a).isEmpty = true := by simpa [pyContains, pyLower] using hc
      exact List.map_eq_nil_iff.mp (List.isEmpty_iff.mp h2)
  have hp : R.filter (fun word => pyContains (pyLower word) (pyLower ([] : PyStr))) = [] := by
    apply List.filter_eq_nil_iff.mpr
    intro a ha
    simp [hkey a ha]
  have hf : R.filter (fun word => !(pyContains (pyLower word) (pyLower ([] : PyStr)))) = R := by
    apply List.filter_eq_self.mpr
    intro a ha
    simp [hkey a ha]
  refine ⟨?_, ?_, ?_, by decide, by decide⟩
  · simp [check_lexical_adherence, hp]
  · simp [check_lexical_adherence, hp]
  · simp [check_lexical_adherence, hf]

/-- Witness for C9 at the one-term constraint set with the term "a". -/
theorem claim_C9_witness :
    (check_lexical_adherence [] [['a']]).passed_count = 0 ∧
    (check_lexical_adherence [] [['a']]).passed_words = [] ∧
    (check_lexical_adherence [] [['a']]).failed_count = ([(['a'] : PyStr)] : List PyStr).length ∧
    (verify_structural_rules []).paragraph_count = 0 ∧
    (verify_structural_rules []).paragraph_count ≠ 3 :=
  claim_C9 [['a']] (by decide)

/-- The scoring step of one trial of `experiment_2_taxonomy.run_experiment`:
the lexical record is computed first; when structural constraints are active
its adherence is overwritten by the 50/50 combination with the structural
score, while the counts are left untouched. -/
def run_trial_score (story : PyStr) (rules : List PyStr) (structural : Bool) : AdherenceRecord :=
  let lexical_result := check_lexical_adherence story rules
  if structural then
    { lexical_result with
        adherence := lexical_result.adherence * 0.5 +
          (verify_structural_rules story).structural_adherence * 0.5 }
  else
    lexical_result

/-- C6: with both lexical and structural constraints active, the recorded
adherence is the unweighted 50/50 average of the lexical and structural
scores, overwriting the lexical-only value, while the passed and failed
counts remain those of the lexical check. -/
theorem claim_C6 (story : PyStr) (rules : List PyStr) :
    (run_trial_score story rules true).adherence =
      ((check_lexical_adherence story rules).adherence +
        (verify_structural_rules story).structural_adherence) / 2 ∧
    (run_trial_score story rules true).passed_count =
      (check_lexical_adherence story rules).passed_count ∧
    (run_trial_score story rules true).failed_count =
      (check_lexical_adherence story rules).failed_count := by
  refine ⟨?_, rfl, rfl⟩
  simp only [run_trial_score, if_true]
  norm_num
  ring

/-- Past-tense indicator vocabulary fixed in
`experiment_3_contradictions.analyze_tense_resolution`. -/
def past_indicators : List PyStr :=
  ["was".toList, "were".toList, "had".toList, "did".toList, "went".toList,
    "saw".toList, "thought".toList, "said".toList]

/-- Future-tense indicator vocabulary fixed in
`experiment_3_contradictions.analyze_tense_resolution`. -/
def future_indicators : List PyStr :=
  ["will".toList, "shall".toList, "going to".toList, "would be".toList]

/-- Python `s.count(needle)` scan for a non-empty needle: counts
non-overlapping occurrences left to right.  `fuel` bounds the recursion;
every step consumes at least one character, so `s.length` fuel suffices. -/
def pyCountAux (needle : PyStr) : Nat → PyStr → Nat
  | _, [] => 0
  | 0, _ => 0
  | fuel + 1, c :: rest =>
    if pyStartsWith needle (c :: rest) then
      pyCountAux needle fuel (rest.drop (needle.length - 1)) + 1
    else
      pyCountAux needle fuel rest

/-- Python `s.count(needle)`; the source only counts non-empty literal
indicator words. -/
def pyCount (needle s : PyStr) : Nat :=
  if needle.isEmpty then s.length + 1 else pyCountAux needle s.length s

/-- `sum(story_lower.count(word) for word in indicators)`. -/
def count_markers (indicators : List PyStr) (story_lower : PyStr) : Nat :=
  (indicators.map (fun w => pyCount w story_lower)).sum

/-- Result record of `analyze_tense_resolution`. -/
structure TenseResult where
  resolution : PyStr
  past_count : Nat
  future_count : Nat

/-- `experiment_3_contradictions.analyze_tense_resolution`. -/
def analyze_tense_resolution (story : PyStr) : TenseResult :=
  let story_lower := pyLower story
  let past_count := count_markers past_indicators story_lower
  let future_count := count_markers future_indicators story_lower
  let total_tense_indicators := past_count + future_count
  if total_tense_indicators = 0 then
    { resolution := "no_clear_tense".toList, past_count := 0, future_count := 0 }
  else
    let past_ratio : ℚ := (past_count : ℚ) / (total_tense_indicators : ℚ)
    let resolution :=
      if past_ratio > 0.8 then "followed_past_tense".toList
      else if past_ratio < 0.2 then "followed_future_tense".toList
      else "mixed_or_ignored".toList
    { resolution := resolution, past_count := past_count, future_count := future_count }

/-- A text with nine past markers and one future marker. -/
def ninePastOneFutureText : PyStr :=
  "was was was was was was was was was will".toList

/-- A text with five past markers and five future markers. -/
def fivePastFiveFutureText : PyStr :=
  "was was was was was will will will will will".toList

/-- C7: the tense classifier counts substring occurrences of the fixed
marker vocabularies in the lowercase text and classifies by the past
fraction with thresholds 0.8 and 0.2; nine past / one future markers give
followed_past_tense and five / five give mixed_or_ignored. -/
theorem claim_C7 (T : PyStr) :
    ((analyze_tense_resolution T).past_count
        = count_markers past_indicators (pyLower T) ∧
      (analyze_tense_resolution T).future_count
        = count_markers future_indicators (pyLower T)) ∧
    (count_markers past_indicators (pyLower T)
        + count_markers future_indicators (pyLower T) = 0 →
      (analyze_tense_resolution T).resolution = "no_clear_tense".toList) ∧
    (0 < count_markers past_indicators (pyLower T)
        + count_markers future_indicators (pyLower T) →
      (((analyze_tense_resolution T).resolution = "followed_past_tense".toList ↔
          (count_markers past_indicators (pyLower T) : ℚ)
            / ((count_markers past_indicators (pyLower T)
                + count_markers future_indicators (pyLower T) : Nat) : ℚ) > 0.8) ∧
        ((analyze_tense_resolution T).resolution = "followed_future_tense".toList ↔
          (count_markers past_indicators (pyLower T) : ℚ)
            / ((count_markers past_indicators (pyLower T)
                + count_markers future_indicators (pyLower T) : Nat) : ℚ) < 0.2) ∧
        ((analyze_tense_resolution T).resolution = "mixed_or_ignored".toList ↔
          (¬ (count_markers past_indicators (pyLower T) : ℚ)
            / ((count_markers past_indicators (pyLower T)
                + count_markers future_indicators (pyLower T) : Nat) : ℚ) > 0.8 ∧
           ¬ (count_markers past_indicators (pyLower T) : ℚ)
            / ((count_markers past_indicators (pyLower T)
                + count_markers future_indicators (pyLower T) : Nat) : ℚ) < 0.2)))) ∧
    (analyze_tense_resolution ninePastOneFutureText).past_count = 9 ∧
    (analyze_tense_resolution ninePastOneFutureText).future_count = 1 ∧
    (analyze_tense_resolution ninePastOneFutureText).resolution
      = "followed_past_tense".toList ∧
    (analyze_tense_resolution fivePastFiveFutureText).resolution
      = "mixed_or_ignored".toList := by
  have hp9 : count_markers past_indicators (pyLower ninePastOneFutureText) = 9 := by decide
  have hf1 : count_markers future_indicators (pyLower ninePastOneFutureText) = 1 := by decide
  have hp5 : count_markers past_indicators (pyLower fivePastFiveFutureText) = 5 := by decide
  have hf5 : count_markers future_indicators (pyLower fivePastFiveFutureText) = 5 := by decide
  refine ⟨⟨?_, ?_⟩, ?_, ?_, ?_, ?_, ?_, ?_⟩
  · by_cases h0 : count_markers past_indicators (pyLower T)
        + count_markers future_indicators (pyLower T) = 0
    · simp only [analyze_tense_resolution, if_pos h0]
      omega
    · simp only [analyze_tense_resolution, if_neg h0]
  · by_cases h0 : count_markers past_indicators (pyLower T)
        + count_markers future_indicators (pyLower T) = 0
    · simp only [analyze_tense_resolution, if_pos h0]
      omega
    · simp only [analyze_tense_resolution, if_neg h0]
  · intro h0
    simp only [analyze_tense_resolution, if_pos h0]
  · intro hpos
    have h0 : ¬ (count_markers past_indicators (pyLower T)
        + count_markers future_indicators (pyLower T) = 0) := by omega
    simp only [analyze_tense_resolution, if_neg h0]
    by_cases hgt : (count_markers past_indicators (pyLower T) : ℚ)
        / ((count_markers past_indicators (pyLower T)
            + count_markers future_indicators (pyLower T) : Nat) : ℚ) > 0.8
    · rw [if_pos hgt]
      refine ⟨⟨fun _ => hgt, fun _ => rfl⟩, ?_, ?_⟩
      · constructor
        · intro hab
          exact absurd hab (by decide)
        · intro hlt
          exact absurd hgt (by linarith)
      · constructor
        · intro hab
          exact absurd hab (by decide)
        · intro hcon
          exact absurd hgt hcon.1
    · rw [if_neg hgt]
      by_cases hlt : (count_markers past_indicators (pyLower T) : ℚ)
          / ((count_markers past_indicators (pyLower T)
              + count_markers future_indicators (pyLower T) : Nat) : ℚ) < 0.2
      · rw [if_pos hlt]
        refine ⟨?_, ⟨fun _ => hlt, fun _ => rfl⟩, ?_⟩
        · constructor
          · intro hab
            exact absurd hab (by decide)
          · intro hg
            exact absurd hg hgt
        · constructor
          · intro hab
            exact absurd hab (by decide)
          · intro hcon
            exact absurd hlt hcon.2
      · rw [if_neg hlt]
        refine ⟨?_, ?_, ⟨fun _ => ⟨hgt, hlt⟩, fun _ => rfl⟩⟩
        · constructor
          · intro hab
            exact absurd hab (by decide)
          · intro hg
            exact absurd hg hgt
        · constructor
          · intro hab
            exact absurd hab (by decide)
          · intro hl
            exact absurd hl hlt
  · norm_num [analyze_tense_resolution, hp9, hf1]
  · norm_num [analyze_tense_resolution, hp9, hf1]
  · norm_num [analyze_tense_resolution, hp9, hf1]
  · norm_num [analyze_tense_resolution, hp5, hf5]

/-- Witness for C7 at a marker-free text, discharging the zero-marker
hypothesis. -/
theorem claim_C7_witness :
    (analyze_tense_resolution "xyz".toList).resolution = "no_clear_tense".toList :=
  (claim_C7 "xyz".toList).2.1 (by decide)

/-- One row of the result file written by `utils.write_results_to_csv`:
either the header row of the fixed fieldnames or a data row carrying the
standardized fields. -/
inductive CsvRow where
  | header : CsvRow
  | data (experiment_name : PyStr) (trial : Nat) (model : PyStr) (R : Nat)
      (passed : Nat) (failed : Nat) (adherence : ℚ) (prompt_len : Nat)
      (details : PyStr) : CsvRow

/-- Recognizer for the header row. -/
def CsvRow.isHeader : CsvRow → Bool
  | CsvRow.header => true
  | CsvRow.data .. => false

/-- The `result_data` dictionary fields read by `write_results_to_csv`,
after its `.get` defaults. -/
structure ResultData where
  R : Nat
  passed_count : Nat
  failed_count : Nat
  adherence : ℚ
  prompt_len : Nat
  details : PyStr

/-- `utils.write_results_to_csv` as a transition on the result file's
content (`none` models a path that does not exist yet): the file is opened
in append mode, the header is written first when and only when the file did
not exist, then exactly one data row is appended. -/
def write_results_to_csv (file : Option (List CsvRow)) (experiment_name : PyStr)
    (trial : Nat) (model_name : PyStr) (result_data : ResultData) : List CsvRow :=
  let rows := match file with | none => [] | some rs => rs
  let newRow := CsvRow.data experiment_name trial model_name result_data.R
    result_data.passed_count result_data.failed_count result_data.adherence
    result_data.prompt_len result_data.details
  (if file.isSome then rows else rows ++ [CsvRow.header]) ++ [newRow]

/-- C8: on a missing file the call writes the header exactly once before its
data row; on an existing file it appends exactly one data row; hence two
sequential appends from a fresh path leave exactly one header row followed
by the two data rows (the file content alone carries the state, so process
restarts between the appends are immaterial). -/
theorem claim_C8 (en1 en2 mo1 mo2 : PyStr) (t1 t2 : Nat) (rd1 rd2 : ResultData) :
    (write_results_to_csv none en1 t1 mo1 rd1 =
      [CsvRow.header,
        CsvRow.data en1 t1 mo1 rd1.R rd1.passed_count rd1.failed_count rd1.adherence
          rd1.prompt_len rd1.details]) ∧
    (∀ rows : List CsvRow, write_results_to_csv (some rows) en2 t2 mo2 rd2 =
      rows ++ [CsvRow.data en2 t2 mo2 rd2.R rd2.passed_count rd2.failed_count rd2.adherence
        rd2.prompt_len rd2.details]) ∧
    (write_results_to_csv (some (write_results_to_csv none en1 t1 mo1 rd1)) en2 t2 mo2 rd2 =
      [CsvRow.header,
        CsvRow.data en1 t1 mo1 rd1.R rd1.passed_count rd1.failed_count rd1.adherence
          rd1.prompt_len rd1.details,
        CsvRow.data en2 t2 mo2 rd2.R rd2.passed_count rd2.failed_count rd2.adherence
          rd2.prompt_len rd2.details]) ∧
    ((write_results_to_csv (some (write_results_to_csv none en1 t1 mo1 rd1))
        en2 t2 mo2 rd2).countP CsvRow.isHeader = 1) := by
  refine ⟨rfl, fun rows => rfl, rfl, ?_⟩
  simp [write_results_to_csv, List.countP_cons, CsvRow.isHeader]
